import Mathlib

/-!
Shallow embedding of the walking-simulation core of walkRadio
(src/frontend/src/App.tsx).  JavaScript numbers are modelled as rationals.
The haversine distance (calculateDistance, App.tsx lines 266 to 279) and the
initial bearing (calculateBearing, lines 282 to 289) are transcendental, so
the functions that consume them are parametrized over an arbitrary rational
valued distance or bearing; concrete instances are used for witnesses.
Rational division by zero yields 0 in Lean while JavaScript yields NaN or an
infinity, so the position finder also records the length of the selected
segment: a recorded length of 0 marks exactly the places where the source
divides by zero.
-/

namespace WalkRadio

/-- Coordinate record, App.tsx lines 15 to 18. -/
structure Coordinate where
  lng : ℚ
  lat : ℚ
deriving DecidableEq

/-- AIResponse record, App.tsx lines 20 to 23: a narration log entry. -/
structure AIResponse where
  timestamp : String
  message : String
deriving DecidableEq

/-- WalkingState, App.tsx line 67. -/
inductive WalkingState where
  | stopped
  | walking
  | paused
deriving DecidableEq

/-- The mutable session fields of the App component (App.tsx lines 70 to 95).
The refs walkingStateRef and currentPaceRef mirror the walkingState and
walkingPace state through effects (lines 98 to 106) and are identified with
them here.  The field outstanding counts narration calls that have been
dispatched but have not completed; it is the number of pending promises of
sendCoordinateToAI and is not stored by the source explicitly. -/
structure AppState where
  walkingPace : ℚ
  walkingState : WalkingState
  coordinates : List Coordinate
  currentCoordinateIndex : ℤ
  aiResponses : List AIResponse
  currentCoordinate : Option Coordinate
  lastResponse : String
  isApiCallInProgress : Bool
  lastAiCallTime : ℤ
  nextAiCallTime : ℤ
  totalDistanceTraveled : ℚ
  coordinateIntervalActive : Bool
  outstanding : ℕ
deriving DecidableEq

/-- Initial component state (App.tsx lines 70 to 95). -/
def initState : AppState where
  walkingPace := 20
  walkingState := WalkingState.stopped
  coordinates := []
  currentCoordinateIndex := 0
  aiResponses := []
  currentCoordinate := none
  lastResponse := ""
  isApiCallInProgress := false
  lastAiCallTime := 0
  nextAiCallTime := 0
  totalDistanceTraveled := 0
  coordinateIntervalActive := false
  outstanding := 0

/-- Result of the position search in updateCoordinatePosition: the
interpolated coordinate, the segment index, the interpolation parameter
progress (App.tsx line 434) and the length of the selected segment.  A
segLen of 0 marks a division by zero in the source (rational division by
zero yields 0 here, while the JavaScript source would produce NaN). -/
structure PosResult where
  coord : Coordinate
  index : ℕ
  t : ℚ
  segLen : ℚ
deriving DecidableEq

/-- Position search loop of updateCoordinatePosition (App.tsx lines 427
to 453), parametrized over the segment distance function.  Walks the
cumulative distances and selects the first segment i with
acc + segmentDistance at least the distance traveled; none means the loop
fell through (end of route reached). -/
def findPositionFrom (dist : Coordinate → Coordinate → ℚ) :
    List Coordinate → ℚ → ℚ → ℕ → Option PosResult
  | c1 :: c2 :: rest, d, acc, i =>
    if acc + dist c1 c2 ≥ d then
      some { coord := { lng := c1.lng + (c2.lng - c1.lng) * ((d - acc) / dist c1 c2),
                        lat := c1.lat + (c2.lat - c1.lat) * ((d - acc) / dist c1 c2) },
             index := i,
             t := (d - acc) / dist c1 c2,
             segLen := dist c1 c2 }
    else
      findPositionFrom dist (c2 :: rest) d (acc + dist c1 c2) (i + 1)
  | _, _, _, _ => none

/-- Position search entry point: accumulated distance 0, index 0. -/
def findPosition (dist : Coordinate → Coordinate → ℚ)
    (coords : List Coordinate) (d : ℚ) : Option PosResult :=
  findPositionFrom dist coords d 0 0

/-- Synchronous prefix of sendCoordinateToAI (App.tsx lines 299 to 306):
if a call is already in progress, skip; otherwise mark the call in progress
and dispatch the request (one more outstanding call).  The coordinate only
feeds the request payload, not the session state. -/
def dispatchNarration (_coord : Coordinate) (s : AppState) : AppState :=
  if s.isApiCallInProgress then s
  else { s with isApiCallInProgress := true, outstanding := s.outstanding + 1 }

/-- Completion of sendCoordinateToAI (App.tsx lines 382 to 406).  On success
the message is compared with lastResponseRef: identical messages are
discarded, otherwise the entry is prepended and lastResponseRef updated.  On
failure an error entry is prepended and lastResponseRef is not touched.  The
finally block clears the in-progress flag in both cases. -/
def narrationComplete (result : Except String String) (ts : String)
    (s : AppState) : AppState :=
  match result with
  | Except.ok aiMessage =>
    let newResponse : AIResponse := { timestamp := ts, message := aiMessage }
    let s1 :=
      if s.lastResponse = aiMessage then s
      else { s with lastResponse := aiMessage,
                    aiResponses := newResponse :: s.aiResponses }
    { s1 with isApiCallInProgress := false, outstanding := s1.outstanding - 1 }
  | Except.error e =>
    let errorResponse : AIResponse :=
      { timestamp := ts,
        message := "Error: " ++ e ++
          " - Make sure LangFlow is running on localhost:7860" }
    { s with aiResponses := errorResponse :: s.aiResponses,
             isApiCallInProgress := false, outstanding := s.outstanding - 1 }

/-- checkAndSendAiRequest (App.tsx lines 471 to 492).  When 20000 ms have
passed since the last recorded call time and a coordinate is available, the
request is dispatched (subject to the in-flight guard inside
sendCoordinateToAI) and lastAiCallTimeRef is set to now. -/
def checkAndSendAiRequest (now : ℤ) (currentCoord : Option Coordinate)
    (s : AppState) : AppState :=
  let coordToUse := currentCoord.orElse fun _ => s.currentCoordinate
  match coordToUse with
  | some c =>
    if now - s.lastAiCallTime ≥ 20000 then
      let s1 := dispatchNarration c s
      { s1 with lastAiCallTime := now, nextAiCallTime := now + 20000 }
    else
      { s with nextAiCallTime := s.lastAiCallTime + 20000 }
  | none =>
    if now - s.lastAiCallTime ≥ 20000 then s
    else { s with nextAiCallTime := s.lastAiCallTime + 20000 }

/-- updateCoordinatePosition (App.tsx lines 410 to 468): the one second
position tick.  Outside the walking state it returns immediately.  Otherwise
it converts the pace from km/h to m/s, accumulates the distance, finds the
position along the route, and evaluates the narration gate; falling past the
last segment stops the simulation and clears the interval. -/
def updateCoordinatePosition (dist : Coordinate → Coordinate → ℚ) (now : ℤ)
    (s : AppState) : AppState :=
  if s.walkingState = WalkingState.walking then
    let newTotal := s.totalDistanceTraveled + s.walkingPace / (36 / 10)
    let s1 := { s with totalDistanceTraveled := newTotal }
    match findPosition dist s1.coordinates newTotal with
    | some r =>
      checkAndSendAiRequest now (some r.coord)
        { s1 with currentCoordinate := some r.coord,
                  currentCoordinateIndex := (r.index : ℤ) }
    | none =>
      { s1 with walkingState := WalkingState.stopped,
                currentCoordinate := s1.coordinates.getLast?,
                currentCoordinateIndex := (s1.coordinates.length : ℤ) - 1,
                coordinateIntervalActive := false }
  else s

/-- startWalking (App.tsx lines 495 to 534).  Rejected with an alert when the
route is empty and ignored when already walking; otherwise clears existing
intervals, resets index, position, log and distance, records the call time,
sends the first coordinate immediately and arms the one second interval. -/
def startWalking (now : ℤ) (s : AppState) : AppState :=
  match s.coordinates with
  | [] => s
  | c0 :: _ =>
    if s.walkingState = WalkingState.walking then s
    else
      let s1 := { s with
        coordinateIntervalActive := false,
        walkingState := WalkingState.walking,
        currentCoordinateIndex := 0,
        currentCoordinate := some c0,
        aiResponses := [],
        lastAiCallTime := now,
        totalDistanceTraveled := 0,
        nextAiCallTime := now + 20000 }
      { dispatchNarration c0 s1 with coordinateIntervalActive := true }

/-- pauseWalking (App.tsx lines 537 to 548): unconditionally sets the state
to paused and clears the intervals. -/
def pauseWalking (s : AppState) : AppState :=
  { s with walkingState := WalkingState.paused, coordinateIntervalActive := false }

/-- continueWalking (App.tsx lines 551 to 565): ignored unless paused,
otherwise resumes walking and re-arms the interval. -/
def continueWalking (s : AppState) : AppState :=
  if s.walkingState ≠ WalkingState.paused then s
  else { s with walkingState := WalkingState.walking, coordinateIntervalActive := true }

/-- stopWalking (App.tsx lines 568 to 579): unconditionally sets the state
to stopped and clears the intervals. -/
def stopWalking (s : AppState) : AppState :=
  { s with walkingState := WalkingState.stopped, coordinateIntervalActive := false }

/-- Pace change through the number input (App.tsx line 818): stores whatever
number the user typed; the min and max markup attributes do not constrain
the change handler. -/
def setPaceTyped (p : ℚ) (s : AppState) : AppState :=
  { s with walkingPace := p }

/-- Pace decrement button (App.tsx line 809): clamped at 0.5 from below. -/
def paceDown (s : AppState) : AppState :=
  { s with walkingPace := max (1 / 2) (s.walkingPace - 1 / 2) }

/-- Pace increment button (App.tsx line 829): clamped at 50 from above. -/
def paceUp (s : AppState) : AppState :=
  { s with walkingPace := min 50 (s.walkingPace + 1 / 2) }

/-- Route replacement: setCoordinates as called from processRouteUrl
(App.tsx line 242) and generateRouteFromPoints (line 670); the list comes
from the external route provider and may have any length. -/
def setRoute (cs : List Coordinate) (s : AppState) : AppState :=
  { s with coordinates := cs }

/-- JavaScript Math.round on a rational: floor of x + 1/2. -/
def jsRound (x : ℚ) : ℤ := ⌊x + 1 / 2⌋

/-- Progress value shown by the progress bar section (App.tsx lines 985
to 997): a vertex index based percentage. -/
def progressPercent (s : AppState) : ℤ :=
  if 0 < s.coordinates.length then
    jsRound ((((s.currentCoordinateIndex : ℚ) + 1) / (s.coordinates.length : ℚ)) * 100)
  else 0

/-- Sum of consecutive pair segment distances of a route. -/
def totalRouteDistance (dist : Coordinate → Coordinate → ℚ) :
    List Coordinate → ℚ
  | c1 :: c2 :: rest => dist c1 c2 + totalRouteDistance dist (c2 :: rest)
  | _ => 0

/-- Turn directions used by the narration context. -/
inductive TurnDir where
  | left
  | right
deriving DecidableEq

/-- Turn decision of sendCoordinateToAI (App.tsx lines 336 to 342): raw
absolute difference of the two bearings against the 30 degree threshold,
sign by raw numeric comparison; no wraparound handling. -/
def turnHint (currentBearing nextBearing : ℚ) : Option TurnDir :=
  if |nextBearing - currentBearing| > 30 then
    some (if nextBearing > currentBearing then TurnDir.right else TurnDir.left)
  else none

/-- Modelled from the spec: the bearing delta taken modulo wraparound at 360
degrees, normalized into the interval from -180 exclusive to 180 inclusive.
Used only to compare the source turn decision with the specified one. -/
def wrapDelta (incoming outgoing : ℚ) : ℚ :=
  if outgoing - incoming > 180 then outgoing - incoming - 360
  else if outgoing - incoming ≤ -180 then outgoing - incoming + 360
  else outgoing - incoming

/-- Modelled from the spec: report a turn when the wrapped bearing delta
exceeds 30 degrees, right when the outgoing bearing is greater modulo
wraparound, left otherwise. -/
def turnHintSpec (incoming outgoing : ℚ) : Option TurnDir :=
  if |wrapDelta incoming outgoing| > 30 then
    some (if wrapDelta incoming outgoing > 0 then TurnDir.right else TurnDir.left)
  else none

/-- Concrete nonnegative distance function used for witnesses: absolute
latitude difference. -/
def latDist (a b : Coordinate) : ℚ := |b.lat - a.lat|

/-- Event level reachability of session states: the initial component state,
followed by any sequence of button handlers, pace and route changes, one
second ticks and narration completions.  A completion requires an
outstanding narration call. -/
inductive Reachable (dist : Coordinate → Coordinate → ℚ) : AppState → Prop where
  | init : Reachable dist initState
  | start (now : ℤ) (s : AppState) :
      Reachable dist s → Reachable dist (startWalking now s)
  | pause (s : AppState) : Reachable dist s → Reachable dist (pauseWalking s)
  | resume (s : AppState) : Reachable dist s → Reachable dist (continueWalking s)
  | halt (s : AppState) : Reachable dist s → Reachable dist (stopWalking s)
  | pace (p : ℚ) (s : AppState) :
      Reachable dist s → Reachable dist (setPaceTyped p s)
  | paceDec (s : AppState) : Reachable dist s → Reachable dist (paceDown s)
  | paceInc (s : AppState) : Reachable dist s → Reachable dist (paceUp s)
  | route (cs : List Coordinate) (s : AppState) :
      Reachable dist s → Reachable dist (setRoute cs s)
  | tick (now : ℤ) (s : AppState) :
      Reachable dist s → Reachable dist (updateCoordinatePosition dist now s)
  | complete (res : Except String String) (ts : String) (s : AppState) :
      Reachable dist s → 0 < s.outstanding →
      Reachable dist (narrationComplete res ts s)

/-! Helper lemmas about the step functions. -/

theorem dispatchNarration_inflight (c : Coordinate) {s : AppState}
    (hf : s.isApiCallInProgress = true) : dispatchNarration c s = s := by
  simp [dispatchNarration, hf]

theorem dispatchNarration_walkingState (c : Coordinate) (s : AppState) :
    (dispatchNarration c s).walkingState = s.walkingState := by
  unfold dispatchNarration; split <;> rfl

theorem dispatchNarration_totalDistanceTraveled (c : Coordinate) (s : AppState) :
    (dispatchNarration c s).totalDistanceTraveled = s.totalDistanceTraveled := by
  unfold dispatchNarration; split <;> rfl

theorem dispatchNarration_aiResponses (c : Coordinate) (s : AppState) :
    (dispatchNarration c s).aiResponses = s.aiResponses := by
  unfold dispatchNarration; split <;> rfl

theorem dispatchNarration_lastResponse (c : Coordinate) (s : AppState) :
    (dispatchNarration c s).lastResponse = s.lastResponse := by
  unfold dispatchNarration; split <;> rfl

theorem dispatchNarration_coordinates (c : Coordinate) (s : AppState) :
    (dispatchNarration c s).coordinates = s.coordinates := by
  unfold dispatchNarration; split <;> rfl

theorem dispatchNarration_currentCoordinateIndex (c : Coordinate) (s : AppState) :
    (dispatchNarration c s).currentCoordinateIndex = s.currentCoordinateIndex := by
  unfold dispatchNarration; split <;> rfl

theorem checkAndSend_totalDistanceTraveled (now : ℤ) (cOpt : Option Coordinate)
    (s : AppState) :
    (checkAndSendAiRequest now cOpt s).totalDistanceTraveled = s.totalDistanceTraveled := by
  simp only [checkAndSendAiRequest]
  split <;> split <;> simp [dispatchNarration_totalDistanceTraveled]

theorem checkAndSend_coordinates (now : ℤ) (cOpt : Option Coordinate) (s : AppState) :
    (checkAndSendAiRequest now cOpt s).coordinates = s.coordinates := by
  simp only [checkAndSendAiRequest]
  split <;> split <;> simp [dispatchNarration_coordinates]

theorem checkAndSend_currentCoordinateIndex (now : ℤ) (cOpt : Option Coordinate)
    (s : AppState) :
    (checkAndSendAiRequest now cOpt s).currentCoordinateIndex = s.currentCoordinateIndex := by
  simp only [checkAndSendAiRequest]
  split <;> split <;> simp [dispatchNarration_currentCoordinateIndex]

theorem checkAndSend_lastResponse (now : ℤ) (cOpt : Option Coordinate) (s : AppState) :
    (checkAndSendAiRequest now cOpt s).lastResponse = s.lastResponse := by
  simp only [checkAndSendAiRequest]
  split <;> split <;> simp [dispatchNarration_lastResponse]

theorem checkAndSend_outstanding_inflight (now : ℤ) (cOpt : Option Coordinate)
    {s : AppState} (hf : s.isApiCallInProgress = true) :
    (checkAndSendAiRequest now cOpt s).outstanding = s.outstanding := by
  simp only [checkAndSendAiRequest]
  split <;> split <;> simp [dispatchNarration_inflight _ hf]

/-- The position search only succeeds on routes with at least two vertices. -/
theorem findPositionFrom_lengthPos (dist : Coordinate → Coordinate → ℚ) :
    ∀ (coords : List Coordinate) (d acc : ℚ) (i : ℕ) (r : PosResult),
      findPositionFrom dist coords d acc i = some r → 0 < coords.length := by
  intro coords d acc i r h
  cases coords with
  | nil => simp [findPositionFrom] at h
  | cons c1 rest => simp

/-- A selected segment always has positive length and an interpolation
parameter in the half open unit interval, provided the accumulated distance
at entry is strictly below the distance traveled: a zero length segment can
never satisfy the selection test acc + segLen at least d when acc < d, so
the loop skips it instead of dividing by zero. -/
theorem findPositionFrom_pos (dist : Coordinate → Coordinate → ℚ) :
    ∀ (coords : List Coordinate) (d acc : ℚ) (i : ℕ) (r : PosResult),
      acc < d → findPositionFrom dist coords d acc i = some r →
      0 < r.segLen ∧ 0 < r.t ∧ r.t ≤ 1 := by
  intro coords
  induction coords with
  | nil => intro d acc i r _ h; simp [findPositionFrom] at h
  | cons c1 rest ih =>
    intro d acc i r hlt h
    cases rest with
    | nil => simp [findPositionFrom] at h
    | cons c2 rest2 =>
      simp only [findPositionFrom] at h
      by_cases hsel : acc + dist c1 c2 ≥ d
      · rw [if_pos hsel] at h
        have hr := Option.some.inj h
        subst hr
        have hseg : 0 < dist c1 c2 := by linarith
        refine ⟨hseg, div_pos (by linarith) hseg, ?_⟩
        exact (div_le_one hseg).mpr (by linarith)
      · rw [if_neg hsel] at h
        exact ih d (acc + dist c1 c2) (i + 1) r (by linarith [not_le.mp hsel]) h

/-- C4 (corrected): for every positive distance traveled, whatever segment
the position search selects has strictly positive length, so the division
computing the interpolation parameter is never a division by zero, and the
parameter lies in the half open interval from 0 to 1 without any explicit
clamping.  The source has no special case that treats t as 0 on a zero
length segment and no clamping of t; safety for positive distances comes
from the selection test skipping zero length segments. -/
theorem c4_no_division_by_zero (dist : Coordinate → Coordinate → ℚ)
    (coords : List Coordinate) (d : ℚ) (r : PosResult)
    (hd : 0 < d) (h : findPosition dist coords d = some r) :
    0 < r.segLen ∧ 0 < r.t ∧ r.t ≤ 1 :=
  findPositionFrom_pos dist coords d 0 0 r hd h

/-- Concrete position result used to witness c4_no_division_by_zero. -/
def c4WitnessPos : PosResult :=
  { coord := { lng := 0, lat := 1 / 2 }, index := 0, t := 1 / 2, segLen := 1 }

/-- Witness for C4: the position search at distance one half on a one
segment route of length one. -/
theorem c4_no_division_by_zero_witness :
    (0 : ℚ) < 1 / 2 ∧
    (0 < c4WitnessPos.segLen ∧ 0 < c4WitnessPos.t ∧ c4WitnessPos.t ≤ 1) :=
  ⟨by norm_num,
   c4_no_division_by_zero latDist [⟨0, 0⟩, ⟨0, 1⟩] (1 / 2) c4WitnessPos (by norm_num)
     (by norm_num +decide [findPosition, findPositionFrom, latDist, c4WitnessPos])⟩

/-- C4 counterexample: the claim as stated is false on the code.  First, at
distance traveled 0 on a route whose first two vertices coincide, the search
selects the zero length segment and divides by its zero length (segLen = 0
marks the division by zero; rational division by zero yields t = 0 here,
while the JavaScript source computes 0 divided by 0, which is NaN, not a
route vertex).  Second, the parameter is not clamped to the unit interval:
at distance traveled -1 on a unit segment the code uses t = -1. -/
theorem c4_zero_segment_counterexample :
    findPosition latDist [⟨0, 0⟩, ⟨0, 0⟩, ⟨0, 1⟩] 0 =
      some { coord := ⟨0, 0⟩, index := 0, t := 0, segLen := 0 } ∧
    findPosition latDist [⟨0, 0⟩, ⟨0, 1⟩] (-1) =
      some { coord := ⟨0, -1⟩, index := 0, t := -1, segLen := 1 } := by
  norm_num +decide [findPosition, findPositionFrom, latDist]

/-- C7 (corrected): the turn hint of the narration context is computed from
the raw numeric difference of the two bearings with no wraparound handling:
a right turn is reported exactly when the outgoing bearing exceeds the
incoming one by more than 30, a left turn exactly when the incoming bearing
exceeds the outgoing one by more than 30, and no hint is reported exactly
when the raw absolute difference is at most 30. -/
theorem c7_turn_hint :
    ∀ b1 b2 : ℚ,
      (turnHint b1 b2 = some TurnDir.right ↔ b2 - b1 > 30) ∧
      (turnHint b1 b2 = some TurnDir.left ↔ b1 - b2 > 30) ∧
      (turnHint b1 b2 = none ↔ |b2 - b1| ≤ 30) := by
  intro b1 b2
  unfold turnHint
  by_cases habs : |b2 - b1| > 30
  · rw [if_pos habs]
    by_cases hgt : b2 > b1
    · rw [if_pos hgt]
      have hd : b2 - b1 > 30 := by
        rwa [abs_of_pos (by linarith)] at habs
      refine ⟨⟨fun _ => hd, fun _ => rfl⟩, ⟨fun hx => ?_, fun hx => ?_⟩,
        ⟨fun hx => ?_, fun hx => ?_⟩⟩
      · exact absurd hx (by simp)
      · linarith
      · exact absurd hx (by simp)
      · linarith [le_of_lt habs]
    · rw [if_neg hgt]
      have hd : b1 - b2 > 30 := by
        have : b2 - b1 ≤ 0 := by linarith [not_lt.mp hgt]
        rw [abs_of_nonpos this] at habs
        linarith
      refine ⟨⟨fun hx => ?_, fun hx => ?_⟩, ⟨fun _ => hd, fun _ => rfl⟩,
        ⟨fun hx => ?_, fun hx => ?_⟩⟩
      · exact absurd hx (by simp)
      · linarith
      · exact absurd hx (by simp)
      · linarith [le_of_lt habs]
  · rw [if_neg habs]
    have hle := not_lt.mp habs
    have h1 : ¬(b2 - b1 > 30) := fun hx => hx.not_le (le_trans (le_abs_self _) hle)
    have h2 : ¬(b1 - b2 > 30) := by
      intro hx
      have := le_trans (neg_le_abs (b2 - b1)) hle
      linarith
    exact ⟨⟨fun hx => absurd hx (by simp), fun hx => absurd hx h1⟩,
      ⟨fun hx => absurd hx (by simp), fun hx => absurd hx h2⟩,
      ⟨fun _ => hle, fun _ => rfl⟩⟩

/-- C7 counterexample: with incoming bearing 350 and outgoing bearing 10 the
source reports a left turn (raw difference 340 exceeds the threshold and 10
is not numerically greater than 350) although the wrapped delta is only 20,
below the threshold, so the specified rule reports no turn; with incoming
350 and outgoing 30 the wrapped delta is 40 to the right, but the source
reports a left turn. -/
theorem c7_wraparound_counterexample :
    turnHint 350 10 = some TurnDir.left ∧ turnHintSpec 350 10 = none ∧
    turnHint 350 30 = some TurnDir.left ∧ turnHintSpec 350 30 = some TurnDir.right := by
  norm_num +decide [turnHint, turnHintSpec, wrapDelta]

/-- The in-flight guard tracks the number of outstanding narration calls
exactly: one call is outstanding when the guard is set, none otherwise. -/
def NarrationInv (s : AppState) : Prop :=
  s.outstanding = if s.isApiCallInProgress then 1 else 0

theorem narrationInv_init : NarrationInv initState := by
  simp [NarrationInv, initState]

theorem dispatchNarration_narrationInv (c : Coordinate) {s : AppState}
    (h : NarrationInv s) : NarrationInv (dispatchNarration c s) := by
  cases hb : s.isApiCallInProgress <;>
    simp [NarrationInv, dispatchNarration, hb] at h ⊢ <;> omega

theorem checkAndSend_narrationInv (now : ℤ) (cOpt : Option Coordinate)
    {s : AppState} (h : NarrationInv s) :
    NarrationInv (checkAndSendAiRequest now cOpt s) := by
  simp only [checkAndSendAiRequest]
  split
  · rename_i c hc
    split
    · have h1 := dispatchNarration_narrationInv c h
      cases hb : (dispatchNarration c s).isApiCallInProgress <;>
        simp [NarrationInv, hb] at h1 ⊢ <;> omega
    · cases hb : s.isApiCallInProgress <;> simp [NarrationInv, hb] at h ⊢ <;> omega
  · split
    · exact h
    · cases hb : s.isApiCallInProgress <;> simp [NarrationInv, hb] at h ⊢ <;> omega

theorem startWalking_narrationInv (now : ℤ) {s : AppState}
    (h : NarrationInv s) : NarrationInv (startWalking now s) := by
  unfold startWalking
  split
  · exact h
  · split
    · exact h
    · cases hb : s.isApiCallInProgress <;>
        simp [NarrationInv, dispatchNarration, hb] at h ⊢ <;> omega

theorem tick_narrationInv (dist : Coordinate → Coordinate → ℚ) (now : ℤ)
    {s : AppState} (h : NarrationInv s) :
    NarrationInv (updateCoordinatePosition dist now s) := by
  simp only [updateCoordinatePosition]
  split
  · split
    · apply checkAndSend_narrationInv
      cases hb : s.isApiCallInProgress <;> simp [NarrationInv, hb] at h ⊢ <;> omega
    · cases hb : s.isApiCallInProgress <;> simp [NarrationInv, hb] at h ⊢ <;> omega
  · exact h

theorem narrationComplete_narrationInv (res : Except String String) (ts : String)
    {s : AppState} (h : NarrationInv s) (hout : 0 < s.outstanding) :
    NarrationInv (narrationComplete res ts s) := by
  have hf : s.isApiCallInProgress = true := by
    cases hb : s.isApiCallInProgress
    · rw [NarrationInv, hb] at h; simp at h; omega
    · rfl
  rw [NarrationInv, hf] at h
  simp at h
  cases res with
  | ok m =>
    by_cases hd : s.lastResponse = m <;>
      simp [narrationComplete, NarrationInv, hd] <;> omega
  | error e =>
    simp [narrationComplete, NarrationInv]
    omega

theorem reachable_narrationInv (dist : Coordinate → Coordinate → ℚ)
    {s : AppState} (h : Reachable dist s) : NarrationInv s := by
  induction h with
  | init => exact narrationInv_init
  | start now s _ ih => exact startWalking_narrationInv now ih
  | pause s _ ih =>
    cases hb : s.isApiCallInProgress <;>
      simp [NarrationInv, pauseWalking, hb] at ih ⊢ <;> omega
  | resume s _ ih =>
    unfold continueWalking
    split
    · exact ih
    · cases hb : s.isApiCallInProgress <;>
        simp [NarrationInv, hb] at ih ⊢ <;> omega
  | halt s _ ih =>
    cases hb : s.isApiCallInProgress <;>
      simp [NarrationInv, stopWalking, hb] at ih ⊢ <;> omega
  | pace p s _ ih =>
    cases hb : s.isApiCallInProgress <;>
      simp [NarrationInv, setPaceTyped, hb] at ih ⊢ <;> omega
  | paceDec s _ ih =>
    cases hb : s.isApiCallInProgress <;>
      simp [NarrationInv, paceDown, hb] at ih ⊢ <;> omega
  | paceInc s _ ih =>
    cases hb : s.isApiCallInProgress <;>
      simp [NarrationInv, paceUp, hb] at ih ⊢ <;> omega
  | route cs s _ ih =>
    cases hb : s.isApiCallInProgress <;>
      simp [NarrationInv, setRoute, hb] at ih ⊢ <;> omega
  | tick now s _ ih => exact tick_narrationInv dist now ih
  | complete res ts s _ hout ih => exact narrationComplete_narrationInv res ts ih hout

theorem tick_outstanding_inflight (dist : Coordinate → Coordinate → ℚ) (now : ℤ)
    {s : AppState} (hf : s.isApiCallInProgress = true) :
    (updateCoordinatePosition dist now s).outstanding = s.outstanding := by
  simp only [updateCoordinatePosition]
  split
  · split
    · rw [checkAndSend_outstanding_inflight]
      exact hf
    · rfl
  · rfl

/-- C2 (confirmed): in every reachable state at most one narration call is
outstanding; a position tick taken while a call is in flight dispatches no
second call (the number of outstanding calls does not change); the in-flight
guard is set at dispatch, before the request begins; and every completion,
success or failure, clears the guard. -/
theorem c2_single_flight (dist : Coordinate → Coordinate → ℚ) :
    (∀ s : AppState, Reachable dist s → s.outstanding ≤ 1) ∧
    (∀ (s : AppState) (now : ℤ), s.isApiCallInProgress = true →
      (updateCoordinatePosition dist now s).outstanding = s.outstanding) ∧
    (∀ (c : Coordinate) (s : AppState), s.isApiCallInProgress = false →
      (dispatchNarration c s).isApiCallInProgress = true) ∧
    (∀ (res : Except String String) (ts : String) (s : AppState),
      (narrationComplete res ts s).isApiCallInProgress = false) := by
  refine ⟨?_, ?_, ?_, ?_⟩
  · intro s hs
    have h := reachable_narrationInv dist hs
    rw [NarrationInv] at h
    split at h <;> omega
  · intro s now hf
    exact tick_outstanding_inflight dist now hf
  · intro c s hf
    simp [dispatchNarration, hf]
  · intro res ts s
    unfold narrationComplete
    cases res with
    | ok m => split <;> rfl
    | error e => rfl

/-- Witness for C2: the initial state, a state with the guard set obtained
by one dispatch, and one completion, all evaluated concretely. -/
theorem c2_single_flight_witness :
    initState.outstanding ≤ 1 ∧
    (updateCoordinatePosition latDist 0 (dispatchNarration ⟨0, 0⟩ initState)).outstanding =
      (dispatchNarration ⟨0, 0⟩ initState).outstanding ∧
    (dispatchNarration ⟨0, 0⟩ initState).isApiCallInProgress = true ∧
    (narrationComplete (Except.ok "hello") "t" initState).isApiCallInProgress = false := by
  refine ⟨(c2_single_flight latDist).1 initState Reachable.init,
    (c2_single_flight latDist).2.1 (dispatchNarration ⟨0, 0⟩ initState) 0 ?_,
    (c2_single_flight latDist).2.2.1 ⟨0, 0⟩ initState (by rfl),
    (c2_single_flight latDist).2.2.2 (Except.ok "hello") "t" initState⟩
  norm_num +decide [dispatchNarration, initState]

/-- C1 (corrected): the source guards only some transitions.  Start is a no
op on an empty route or while already Walking, and Continue is a no op
unless Paused; but Pause and Stop are entirely unguarded (Pause always moves
to Paused, even from Stopped, though it never touches the distance or the
log), Stop always moves to Stopped and is idempotent, and Start while Paused
is accepted and performs a full restart, resetting the distance and clearing
the log. -/
theorem c1_transition_guards :
    (∀ (now : ℤ) (s : AppState), s.coordinates = [] → startWalking now s = s) ∧
    (∀ (now : ℤ) (s : AppState), s.walkingState = WalkingState.walking →
      startWalking now s = s) ∧
    (∀ s : AppState, s.walkingState ≠ WalkingState.paused → continueWalking s = s) ∧
    (∀ s : AppState, (pauseWalking s).walkingState = WalkingState.paused ∧
      (pauseWalking s).totalDistanceTraveled = s.totalDistanceTraveled ∧
      (pauseWalking s).aiResponses = s.aiResponses) ∧
    (∀ s : AppState, (stopWalking s).walkingState = WalkingState.stopped ∧
      stopWalking (stopWalking s) = stopWalking s) ∧
    (∀ (now : ℤ) (s : AppState) (c : Coordinate) (rest : List Coordinate),
      s.coordinates = c :: rest → s.walkingState = WalkingState.paused →
      (startWalking now s).walkingState = WalkingState.walking ∧
      (startWalking now s).totalDistanceTraveled = 0 ∧
      (startWalking now s).aiResponses = []) := by
  refine ⟨?_, ?_, ?_, ?_, ?_, ?_⟩
  · intro now s hc
    unfold startWalking
    rw [hc]
  · intro now s hw
    unfold startWalking
    cases s.coordinates with
    | nil => rfl
    | cons c0 rest => exact if_pos hw
  · intro s hp
    unfold continueWalking
    rw [if_pos hp]
  · intro s
    exact ⟨rfl, rfl, rfl⟩
  · intro s
    exact ⟨rfl, rfl⟩
  · intro now s c rest hc hp
    have hnw : ¬s.walkingState = WalkingState.walking := by
      rw [hp]; intro hx; exact WalkingState.noConfusion hx
    unfold startWalking
    rw [hc]
    refine ⟨?_, ?_, ?_⟩ <;>
      simp [hnw, dispatchNarration_walkingState,
        dispatchNarration_totalDistanceTraveled, dispatchNarration_aiResponses]

/-- Witness for C1: the guards evaluated at concrete states. -/
theorem c1_transition_guards_witness :
    startWalking 0 initState = initState ∧
    continueWalking initState = initState ∧
    (startWalking 0 (pauseWalking (setRoute [⟨0, 0⟩] initState))).walkingState =
      WalkingState.walking := by
  refine ⟨c1_transition_guards.1 0 initState rfl,
    c1_transition_guards.2.2.1 initState ?_,
    (c1_transition_guards.2.2.2.2.2 0 (pauseWalking (setRoute [⟨0, 0⟩] initState))
      ⟨0, 0⟩ [] rfl rfl).1⟩
  intro hx
  exact WalkingState.noConfusion hx

/-- C1 counterexample: Pause invoked while Stopped is not a no op, it moves
the state to Paused, contradicting the claim that from Stopped only Start is
legal and everything else leaves the state unchanged; likewise Start invoked
while Paused does not leave the state unchanged, it moves to Walking. -/
theorem c1_illegal_transition_counterexample :
    initState.walkingState = WalkingState.stopped ∧
    (pauseWalking initState).walkingState = WalkingState.paused ∧
    (startWalking 5 (pauseWalking (setRoute [⟨0, 0⟩, ⟨0, 1⟩] initState))).walkingState =
      WalkingState.walking := by
  refine ⟨rfl, rfl, ?_⟩
  norm_num +decide [startWalking, pauseWalking, setRoute, initState, dispatchNarration]

/-- C3 (corrected): a tick taken with a nonnegative pace never decreases the
accumulated distance, a tick outside Walking leaves it unchanged (so no
distance accrues while Paused), Pause and Continue preserve it exactly, and
a Start that actually starts (route attached, not already Walking) resets it
to 0.  The claim fails only because the pace input accepts negative typed
values, under which a tick decreases the distance. -/
theorem c3_distance_invariants (dist : Coordinate → Coordinate → ℚ) :
    (∀ (now : ℤ) (s : AppState), s.walkingState = WalkingState.walking →
      0 ≤ s.walkingPace →
      s.totalDistanceTraveled ≤ (updateCoordinatePosition dist now s).totalDistanceTraveled) ∧
    (∀ s : AppState, (pauseWalking s).totalDistanceTraveled = s.totalDistanceTraveled) ∧
    (∀ s : AppState, (continueWalking s).totalDistanceTraveled = s.totalDistanceTraveled) ∧
    (∀ (now : ℤ) (s : AppState), s.walkingState ≠ WalkingState.walking →
      (updateCoordinatePosition dist now s).totalDistanceTraveled = s.totalDistanceTraveled) ∧
    (∀ (now : ℤ) (s : AppState) (c : Coordinate) (rest : List Coordinate),
      s.coordinates = c :: rest → s.walkingState ≠ WalkingState.walking →
      (startWalking now s).totalDistanceTraveled = 0) := by
  refine ⟨?_, ?_, ?_, ?_, ?_⟩
  · intro now s hw hpace
    have hstep : 0 ≤ s.walkingPace / (36 / 10) := by positivity
    simp only [updateCoordinatePosition, hw, if_true]
    split
    · rw [checkAndSend_totalDistanceTraveled]
      simp only
      linarith
    · simp only
      linarith
  · intro s; rfl
  · intro s
    unfold continueWalking
    split <;> rfl
  · intro now s hw
    simp only [updateCoordinatePosition]
    rw [if_neg hw]
  · intro now s c rest hc hw
    unfold startWalking
    rw [hc]
    simp [hw, dispatchNarration_totalDistanceTraveled]

/-- Witness for C3: the invariants evaluated on a concrete walking state and
a concrete restart. -/
theorem c3_distance_invariants_witness :
    (startWalking 0 (setRoute [⟨0, 0⟩, ⟨0, 1⟩] initState)).totalDistanceTraveled ≤
      (updateCoordinatePosition latDist 1000
        (startWalking 0 (setRoute [⟨0, 0⟩, ⟨0, 1⟩] initState))).totalDistanceTraveled ∧
    (updateCoordinatePosition latDist 1000 initState).totalDistanceTraveled =
      initState.totalDistanceTraveled ∧
    (startWalking 0 (setRoute [⟨0, 0⟩, ⟨0, 1⟩] initState)).totalDistanceTraveled = 0 := by
  refine ⟨(c3_distance_invariants latDist).1 1000 _ ?_ ?_,
    (c3_distance_invariants latDist).2.2.2.1 1000 initState ?_,
    (c3_distance_invariants latDist).2.2.2.2 0 _ ⟨0, 0⟩ [⟨0, 1⟩] rfl ?_⟩
  · norm_num +decide [startWalking, setRoute, initState, dispatchNarration]
  · norm_num +decide [startWalking, setRoute, initState, dispatchNarration]
  · intro hx; exact WalkingState.noConfusion hx
  · intro hx; exact WalkingState.noConfusion hx

def negPaceS1 : AppState := setRoute [⟨0, 0⟩, ⟨0, 1⟩] initState

def negPaceS2 : AppState := setPaceTyped (-(36 / 10)) negPaceS1

def negPaceS3 : AppState := startWalking 0 negPaceS2

def negPaceS4 : AppState := updateCoordinatePosition latDist 1000 negPaceS3

/-- C3 counterexample: the pace input stores any typed number, including a
negative one; with pace -3.6 km/h the session reaches a Walking state from
which one tick strictly decreases totalDistanceTraveled, so the value is not
monotonically non-decreasing while Walking for every pace the session can
hold. -/
theorem c3_negative_pace_counterexample :
    Reachable latDist negPaceS4 ∧
    negPaceS3.walkingState = WalkingState.walking ∧
    negPaceS4.totalDistanceTraveled < negPaceS3.totalDistanceTraveled := by
  refine ⟨Reachable.tick 1000 _ (Reachable.start 0 _ (Reachable.pace _ _
    (Reachable.route _ _ Reachable.init))), ?_⟩
  norm_num +decide [negPaceS4, negPaceS3, negPaceS2, negPaceS1,
    updateCoordinatePosition, startWalking, setPaceTyped, setRoute, initState,
    findPosition, findPositionFrom, checkAndSendAiRequest, dispatchNarration, latDist]

/-- C5 (corrected): the progress value exposed by the progress bar is vertex
index based, not distance based: a walking tick that lands on segment index
i displays round of 100 times (i + 1) over the vertex count, regardless of
totalDistanceTraveled and of the segment lengths. -/
theorem c5_progress_display (dist : Coordinate → Coordinate → ℚ) (now : ℤ)
    (s : AppState) (r : PosResult)
    (hw : s.walkingState = WalkingState.walking)
    (hfp : findPosition dist s.coordinates
      (s.totalDistanceTraveled + s.walkingPace / (36 / 10)) = some r) :
    progressPercent (updateCoordinatePosition dist now s) =
      jsRound ((((r.index : ℚ) + 1) / (s.coordinates.length : ℚ)) * 100) := by
  have hlen : 0 < s.coordinates.length :=
    findPositionFrom_lengthPos dist s.coordinates _ 0 0 r hfp
  simp only [updateCoordinatePosition]
  rw [if_pos hw, hfp]
  simp only [progressPercent, checkAndSend_coordinates, checkAndSend_currentCoordinateIndex]
  rw [if_pos hlen]
  rw [Int.cast_natCast]

def progS1 : AppState := setRoute [⟨0, 0⟩, ⟨0, 1⟩, ⟨0, 10⟩] initState

def progS2 : AppState := setPaceTyped (36 / 10) progS1

def progS3 : AppState := startWalking 0 progS2

def progS4 : AppState := updateCoordinatePosition latDist 1000 progS3

/-- Concrete position result used in the C5 witness. -/
def c5WitnessPos : PosResult :=
  { coord := { lng := 0, lat := 1 }, index := 0, t := 1, segLen := 1 }

/-- Witness for C5: the tick on the concrete three vertex route displays the
index based percentage. -/
theorem c5_progress_display_witness :
    progressPercent (updateCoordinatePosition latDist 1000 progS3) =
      jsRound ((((c5WitnessPos.index : ℚ) + 1) / (progS3.coordinates.length : ℚ)) * 100) :=
  c5_progress_display latDist 1000 progS3 c5WitnessPos
    (by norm_num +decide [progS3, progS2, progS1, startWalking, setPaceTyped,
      setRoute, initState, dispatchNarration])
    (by norm_num +decide [progS3, progS2, progS1, startWalking, setPaceTyped,
      setRoute, initState, dispatchNarration, findPosition, findPositionFrom,
      latDist, c5WitnessPos])

/-- C5 counterexample: in a reachable session on the route with vertex
latitudes 0, 1, 10 (segment lengths 1 and 9) after one tick of one meter,
the exposed progress is 33 percent while the distance fraction
totalDistanceTraveled over totalDistance is 10 percent, so the exposed
progress does not equal the claimed ratio. -/
theorem c5_progress_counterexample :
    Reachable latDist progS4 ∧
    progressPercent progS4 = 33 ∧
    100 * progS4.totalDistanceTraveled / totalRouteDistance latDist progS4.coordinates = 10 ∧
    (progressPercent progS4 : ℚ) ≠
      100 * progS4.totalDistanceTraveled / totalRouteDistance latDist progS4.coordinates := by
  refine ⟨Reachable.tick 1000 _ (Reachable.start 0 _ (Reachable.pace _ _
    (Reachable.route _ _ Reachable.init))), ?_⟩
  norm_num +decide [progS4, progS3, progS2, progS1, updateCoordinatePosition,
    startWalking, setPaceTyped, setRoute, initState, findPosition, findPositionFrom,
    checkAndSendAiRequest, dispatchNarration, latDist, progressPercent, jsRound,
    totalRouteDistance]

/-- C6 (corrected): on a tick with a coordinate available, when the
narration period has elapsed the recorded last call time is set to now
whether or not a request is actually dispatched, and a request is dispatched
(one more outstanding call) exactly when no call is in flight; when the
period has not elapsed neither the recorded time nor the outstanding count
changes.  Consequently a time eligible tick during an in flight call
advances the recorded time while dispatching nothing, contrary to the claim
that the time is set exactly at dispatch. -/
theorem c6_narration_gate (now : ℤ) (c : Coordinate) (s : AppState) :
    (now - s.lastAiCallTime ≥ 20000 →
      (checkAndSendAiRequest now (some c) s).lastAiCallTime = now ∧
      ((checkAndSendAiRequest now (some c) s).outstanding = s.outstanding + 1 ↔
        s.isApiCallInProgress = false)) ∧
    (now - s.lastAiCallTime < 20000 →
      (checkAndSendAiRequest now (some c) s).lastAiCallTime = s.lastAiCallTime ∧
      (checkAndSendAiRequest now (some c) s).outstanding = s.outstanding) := by
  constructor
  · intro h
    simp only [checkAndSendAiRequest, Option.orElse]
    rw [if_pos h]
    refine ⟨rfl, ?_, ?_⟩
    · intro hout
      by_contra hbb
      have hb : s.isApiCallInProgress = true := by
        revert hbb; cases s.isApiCallInProgress <;> simp
      rw [dispatchNarration_inflight _ hb] at hout
      simp at hout
    · intro hb
      simp [dispatchNarration, hb]
  · intro h
    simp only [checkAndSendAiRequest, Option.orElse]
    rw [if_neg (by omega : ¬now - s.lastAiCallTime ≥ 20000)]
    exact ⟨rfl, rfl⟩

/-- Witness for C6: the gate evaluated at the initial state with an elapsed
period. -/
theorem c6_narration_gate_witness :
    (checkAndSendAiRequest 20000 (some ⟨0, 0⟩) initState).lastAiCallTime = 20000 ∧
    ((checkAndSendAiRequest 20000 (some ⟨0, 0⟩) initState).outstanding =
        initState.outstanding + 1 ↔
      initState.isApiCallInProgress = false) :=
  (c6_narration_gate 20000 ⟨0, 0⟩ initState).1 (by norm_num [initState])

def gateS1 : AppState := setRoute [⟨0, 0⟩, ⟨0, 100⟩] initState

def gateS2 : AppState := startWalking 0 gateS1

def gateS3 : AppState := updateCoordinatePosition latDist 25000 gateS2

/-- C6 counterexample: in a reachable session whose initial narration call
is still in flight, the tick at 25000 ms is time eligible, dispatches
nothing (the outstanding count is unchanged), and still overwrites the
recorded last call time, so a time eligible tick with no dispatch does not
leave the recorded time unchanged as claimed. -/
theorem c6_gate_timestamp_counterexample :
    Reachable latDist gateS3 ∧
    gateS2.isApiCallInProgress = true ∧
    (25000 : ℤ) - gateS2.lastAiCallTime ≥ 20000 ∧
    gateS3.outstanding = gateS2.outstanding ∧
    gateS3.lastAiCallTime ≠ gateS2.lastAiCallTime := by
  refine ⟨Reachable.tick 25000 _ (Reachable.start 0 _
    (Reachable.route _ _ Reachable.init)), ?_⟩
  norm_num +decide [gateS3, gateS2, gateS1, updateCoordinatePosition, startWalking,
    setRoute, initState, findPosition, findPositionFrom, checkAndSendAiRequest,
    dispatchNarration, latDist]

/-- C8 (corrected): the start handler rejects only a route with zero
coordinates (alert and no state change at all); a route with exactly one
coordinate is accepted: the state becomes Walking, the interval is armed,
the distance is reset, the log is cleared and the initial narration is
dispatched.  The first tick of such a session then immediately ends the
walk, but the start itself is not rejected. -/
theorem c8_start_guard :
    (∀ (now : ℤ) (s : AppState), s.coordinates = [] → startWalking now s = s) ∧
    (∀ (now : ℤ) (s : AppState) (c : Coordinate),
      s.coordinates = [c] → s.walkingState ≠ WalkingState.walking →
      s.isApiCallInProgress = false →
      (startWalking now s).walkingState = WalkingState.walking ∧
      (startWalking now s).coordinateIntervalActive = true ∧
      (startWalking now s).totalDistanceTraveled = 0 ∧
      (startWalking now s).aiResponses = [] ∧
      (startWalking now s).outstanding = s.outstanding + 1) := by
  constructor
  · intro now s hc
    unfold startWalking
    rw [hc]
  · intro now s c hc hw hf
    unfold startWalking
    rw [hc]
    refine ⟨?_, ?_, ?_, ?_, ?_⟩ <;> simp [hw, dispatchNarration, hf]

/-- Witness for C8: the empty route rejection and the one coordinate
acceptance evaluated concretely. -/
theorem c8_start_guard_witness :
    startWalking 0 (setRoute [] initState) = setRoute [] initState ∧
    (startWalking 0 (setRoute [⟨0, 0⟩] initState)).walkingState = WalkingState.walking ∧
    (startWalking 0 (setRoute [⟨0, 0⟩] initState)).outstanding =
      (setRoute [⟨0, 0⟩] initState).outstanding + 1 := by
  refine ⟨c8_start_guard.1 0 _ rfl,
    (c8_start_guard.2 0 _ ⟨0, 0⟩ rfl ?_ rfl).1,
    (c8_start_guard.2 0 _ ⟨0, 0⟩ rfl ?_ rfl).2.2.2.2⟩ <;>
  · intro hx
    exact WalkingState.noConfusion hx

def singlePointStart : AppState := startWalking 0 (setRoute [⟨0, 0⟩] initState)

/-- C8 counterexample: starting on a reachable route with exactly one
coordinate is not rejected and does not leave the session unchanged: the
state becomes Walking, the timer is armed and a narration call is
dispatched, contradicting the claim that fewer than two coordinates are
rejected with no state change. -/
theorem c8_single_point_counterexample :
    Reachable latDist singlePointStart ∧
    singlePointStart.walkingState = WalkingState.walking ∧
    singlePointStart.coordinateIntervalActive = true ∧
    singlePointStart.outstanding = 1 := by
  refine ⟨Reachable.start 0 _ (Reachable.route _ _ Reachable.init), ?_⟩
  norm_num +decide [singlePointStart, startWalking, setRoute, initState,
    dispatchNarration]

/-- C9 (confirmed): every completion clears the in flight guard; a
successful result equal to the remembered last message is discarded without
touching the log or the remembered message; a new successful result is
prepended to the log and remembered; a failure prepends an error entry and
does not touch the remembered message; and two consecutive successful
completions with identical text produce exactly one log entry. -/
theorem c9_completion_handling :
    (∀ (res : Except String String) (ts : String) (s : AppState),
      (narrationComplete res ts s).isApiCallInProgress = false) ∧
    (∀ (msg ts : String) (s : AppState), s.lastResponse = msg →
      (narrationComplete (Except.ok msg) ts s).aiResponses = s.aiResponses ∧
      (narrationComplete (Except.ok msg) ts s).lastResponse = s.lastResponse) ∧
    (∀ (msg ts : String) (s : AppState), s.lastResponse ≠ msg →
      (narrationComplete (Except.ok msg) ts s).aiResponses =
        { timestamp := ts, message := msg } :: s.aiResponses ∧
      (narrationComplete (Except.ok msg) ts s).lastResponse = msg) ∧
    (∀ (e ts : String) (s : AppState),
      (narrationComplete (Except.error e) ts s).aiResponses =
        { timestamp := ts,
          message := "Error: " ++ e ++
            " - Make sure LangFlow is running on localhost:7860" } :: s.aiResponses ∧
      (narrationComplete (Except.error e) ts s).lastResponse = s.lastResponse) ∧
    (∀ (msg ts1 ts2 : String) (s : AppState), s.lastResponse ≠ msg →
      (narrationComplete (Except.ok msg) ts2
          (narrationComplete (Except.ok msg) ts1 s)).aiResponses =
        { timestamp := ts1, message := msg } :: s.aiResponses) := by
  refine ⟨?_, ?_, ?_, ?_, ?_⟩
  · intro res ts s
    unfold narrationComplete
    cases res with
    | ok m => split <;> rfl
    | error e => rfl
  · intro msg ts s h
    simp [narrationComplete, h]
  · intro msg ts s h
    simp [narrationComplete, h]
  · intro e ts s
    exact ⟨rfl, rfl⟩
  · intro msg ts1 ts2 s h
    simp [narrationComplete, h]

/-- Witness for C9: a duplicate discarded and a new message appended, on the
initial state. -/
theorem c9_completion_handling_witness :
    (narrationComplete (Except.ok "") "t" initState).aiResponses =
      initState.aiResponses ∧
    (narrationComplete (Except.ok "hi") "t" initState).aiResponses =
      { timestamp := "t", message := "hi" } :: initState.aiResponses := by
  exact ⟨(c9_completion_handling.2.1 "" "t" initState rfl).1,
    (c9_completion_handling.2.2.1 "hi" "t" initState (by simp [initState])).1⟩

def dedupS1 : AppState := setRoute [⟨0, 0⟩, ⟨0, 1⟩] initState

def dedupS2 : AppState := startWalking 0 dedupS1

def dedupS3 : AppState :=
  narrationComplete (Except.ok "clear skies over the park") "t1" dedupS2

def dedupS4 : AppState := stopWalking dedupS3

def dedupS5 : AppState := startWalking 100000 dedupS4

def dedupS6 : AppState :=
  narrationComplete (Except.ok "clear skies over the park") "t2" dedupS5

/-- C10 (confirmed): the remembered last narration text survives Stop and
Start (neither handler touches it), while Start clears the log; in the
exhibited reachable execution the second session begins with an empty log
and the remembered text of the first session, and its first successful
narration, textually identical to that remembered text, is discarded, so the
new session log stays empty. -/
theorem c10_dedup_across_sessions :
    (∀ s : AppState, (stopWalking s).lastResponse = s.lastResponse) ∧
    (∀ (now : ℤ) (s : AppState), (startWalking now s).lastResponse = s.lastResponse) ∧
    (Reachable latDist dedupS6 ∧
      dedupS3.aiResponses =
        [{ timestamp := "t1", message := "clear skies over the park" }] ∧
      dedupS5.aiResponses = [] ∧
      dedupS5.lastResponse = "clear skies over the park" ∧
      dedupS5.outstanding = 1 ∧
      dedupS6.aiResponses = [] ∧
      dedupS6.lastResponse = "clear skies over the park") := by
  refine ⟨fun s => rfl, ?_, ?_, ?_⟩
  · intro now s
    unfold startWalking
    split
    · rfl
    · split
      · rfl
      · simp [dispatchNarration_lastResponse]
  · have h2 : dedupS2.outstanding = 1 := by
      norm_num +decide [dedupS2, dedupS1, startWalking, setRoute, initState,
        dispatchNarration]
    have h5 : dedupS5.outstanding = 1 := by
      norm_num +decide [dedupS5, dedupS4, dedupS3, dedupS2, dedupS1,
        narrationComplete, stopWalking, startWalking, setRoute, initState,
        dispatchNarration]
    exact Reachable.complete _ _ _
      (Reachable.start _ _ (Reachable.halt _
        (Reachable.complete _ _ _ (Reachable.start _ _
          (Reachable.route _ _ Reachable.init)) (by rw [h2]; norm_num))))
      (by rw [h5]; norm_num)
  · norm_num +decide [dedupS6, dedupS5, dedupS4, dedupS3, dedupS2, dedupS1,
      narrationComplete, stopWalking, startWalking, setRoute, initState,
      dispatchNarration]

end WalkRadio
